import Mathlib

set_option maxRecDepth 8192

/-!
Verification of the Slack alert pipeline of `docs/integration/slack-alert.py`.

The Python script polls the SQL Audit Service for critical findings and
forwards them to a Slack channel, deduplicating on the finding id.  We embed
the pure decision logic of the script: the renderer
(`SlackAlertService._build_message_blocks`), the dispatch entry point
(`SlackAlertService.send_alert`, with the Slack channel's response to its one
`chat_postMessage` call supplied as an oracle), the fetch adapter
(`AuditServiceClient.query_critical_findings`, with the HTTP outcome supplied
as a `FetchResult`), and one iteration of the `main` polling loop.

Python dictionaries with `.get` accessors become structures with `Option`
fields; the in-memory `sent_alerts` set becomes a list used with set
semantics (elements are only added after a membership check); wall-clock
times become `Nat`.
-/

namespace SlackAlert

/-- A finding record as consumed by the script.  Every field is read with
`finding.get(...)`, so each may be absent; `metadata` is a key/value mapping
tested for truthiness (absent and empty behave alike). -/
structure Finding where
  id : Option String
  sql : Option String
  riskScore : Option Nat
  riskLevel : Option String
  checkerId : Option String
  message : Option String
  recommendation : Option String
  createdAt : Option String
  metadata : Option (List (String × String))
deriving DecidableEq, Repr

/-- One Slack Block-Kit block, abstracted to the text it carries. -/
inductive Block where
  | header (text : String)
  | fieldsSection (fields : List String)
  | textSection (text : String)
  | divider
deriving DecidableEq, Repr

/-- The severity-to-emoji table `emoji_map` of `_build_message_blocks`. -/
def emoji_map : List (String × String) :=
  [("CRITICAL", ":rotating_light:"),
   ("HIGH", ":warning:"),
   ("MEDIUM", ":yellow_circle:"),
   ("LOW", ":information_source:")]

/-- `emoji_map.get(severity, ':question:')`. -/
def emoji_for (severity : String) : String :=
  (((emoji_map.find? (fun p => p.1 == severity)).map Prod.snd)).getD ":question:"

/-- `'\n'.join(f"• *{k}:* {v}" for k, v in metadata.items())`. -/
def metadata_text (m : List (String × String)) : String :=
  String.intercalate "\n" (m.map (fun p => "• *" ++ p.1 ++ ":* " ++ p.2))

/-- `SlackAlertService._build_message_blocks`: renders one finding into the
list of message blocks.  The metadata section is appended only when
`finding.get('metadata')` is truthy. -/
def build_message_blocks (f : Finding) : List Block :=
  let risk_score := f.riskScore.getD 0
  let severity := f.riskLevel.getD "UNKNOWN"
  let emoji := emoji_for severity
  let base : List Block :=
    [Block.header (emoji ++ " Critical SQL Audit Finding"),
     Block.fieldsSection
       ["*Severity:*\n" ++ severity,
        "*Risk Score:*\n" ++ toString risk_score ++ "/100",
        "*Checker:*\n" ++ f.checkerId.getD "Unknown",
        "*Time:*\n" ++ f.createdAt.getD "Unknown"],
     Block.textSection ("*SQL Statement:*\n```" ++ f.sql.getD "N/A" ++ "```"),
     Block.textSection ("*Issue:*\n" ++ f.message.getD "No description available"),
     Block.textSection
       ("*Recommendation:*\n" ++ f.recommendation.getD "No recommendation available"),
     Block.divider]
  let m := f.metadata.getD []
  if m = [] then base
  else base ++ [Block.textSection ("*Additional Details:*\n" ++ metadata_text m)]

/-- The arguments of the script's single `chat_postMessage` call: channel,
rich blocks, and the plain-text fallback. -/
structure SlackMessage where
  channel : String
  blocks : List Block
  text : String
deriving DecidableEq, Repr

/-- The message `send_alert` posts for a finding; its `text` field is the
fallback `f"Critical SQL Issue: {finding.get('message', 'Unknown')}"`. -/
def mkMessage (ch : String) (f : Finding) : SlackMessage :=
  { channel := ch
    blocks := build_message_blocks f
    text := "Critical SQL Issue: " ++ f.message.getD "Unknown" }

/-- Outcome of one `chat_postMessage` call: success, or a `SlackApiError`
carrying the channel's error classification (`e.response['error']`). -/
inductive SlackResult where
  | ok
  | apiError (reason : String)
deriving DecidableEq, Repr

/-- `SlackAlertService.send_alert`.  `oracle` is the channel's response to
the one `chat_postMessage` call the method can make; `st` is the
`sent_alerts` ledger.  Returns the boolean result, the updated ledger, and
the list of messages actually posted to the channel (the call trace). -/
def send_alert (oracle : SlackResult) (ch : String) (st : List (Option String))
    (f : Finding) : Bool × List (Option String) × List SlackMessage :=
  if f.id ∈ st then (false, st, [])
  else
    match oracle with
    | SlackResult.ok => (true, f.id :: st, [mkMessage ch f])
    | SlackResult.apiError _ => (false, st, [mkMessage ch f])

/-- Result of one poll cycle's alert loop in `main`: final `sent_alerts`
ledger, the messages posted to the channel (in order), and the finding ids
for which `send_alert` returned `True`. -/
structure CycleOutcome where
  ledger : List (Option String)
  posted : List SlackMessage
  succeeded : List (Option String)
deriving DecidableEq, Repr

/-- The `for finding in findings: if slack_service.send_alert(finding): ...`
loop of `main`, processing the fetched findings in order.  `oracle` gives
the channel's response to the post for each finding. -/
def process_findings (oracle : Finding → SlackResult) (ch : String)
    (st : List (Option String)) : List Finding → CycleOutcome
  | [] => ⟨st, [], []⟩
  | f :: rest =>
    let r := send_alert (oracle f) ch st f
    let tl := process_findings oracle ch r.2.1 rest
    ⟨tl.ledger, r.2.2 ++ tl.posted,
     (if r.1 then [f.id] else []) ++ tl.succeeded⟩

/-- Outcome of the HTTP GET in `AuditServiceClient.query_critical_findings`:
the parsed `content` array on success, or a `requests.RequestException`
(network failure, timeout, or — via `raise_for_status` — a non-success
status). -/
inductive FetchResult where
  | success (content : List Finding)
  | failure
deriving DecidableEq, Repr

/-- `AuditServiceClient.query_critical_findings`: returns the `content`
array, and on any `RequestException` logs and returns the empty list. -/
def query_critical_findings : FetchResult → List Finding
  | FetchResult.success content => content
  | FetchResult.failure => []

/-- The state `main` carries across poll cycles: the `last_poll` timestamp
and the `sent_alerts` ledger of the `SlackAlertService`. -/
structure LoopState where
  last_poll : Nat
  ledger : List (Option String)
deriving DecidableEq, Repr

/-- One iteration of the `while True` loop in `main` (the non-exceptional
path): fetch findings since `last_poll`, send alerts for each, then set
`last_poll = datetime.now()`.  Returns the new state, the messages posted,
and `alerts_sent`. -/
def main_cycle (now : Nat) (fetch : FetchResult) (oracle : Finding → SlackResult)
    (ch : String) (st : LoopState) : LoopState × List SlackMessage × Nat :=
  let findings := query_critical_findings fetch
  let out := process_findings oracle ch st.ledger findings
  ({ last_poll := now, ledger := out.ledger }, out.posted, out.succeeded.length)

/-- One poll cycle as fed to the multi-cycle run: the fetch result the audit
service returns and the channel's behaviour for that cycle. -/
structure Cycle where
  fetch : FetchResult
  oracle : Finding → SlackResult

/-- A run of successive poll cycles starting from ledger `st`, collecting
every finding id for which a dispatch succeeded, across all cycles. -/
def run_cycles (ch : String) (st : List (Option String)) :
    List Cycle → List (Option String) × List (Option String)
  | [] => (st, [])
  | c :: rest =>
    let out := process_findings c.oracle ch st (query_critical_findings c.fetch)
    let tl := run_cycles ch out.ledger rest
    (tl.1, out.succeeded ++ tl.2)

/-! ### Basic lemmas about `send_alert` and the cycle loop -/

theorem send_alert_of_mem (o : SlackResult) (ch : String) (st : List (Option String))
    (f : Finding) (h : f.id ∈ st) : send_alert o ch st f = (false, st, []) := by
  simp [send_alert, h]

theorem send_alert_mem_mono (o : SlackResult) (ch : String) (st : List (Option String))
    (f : Finding) {x : Option String} (h : x ∈ st) : x ∈ (send_alert o ch st f).2.1 := by
  unfold send_alert
  by_cases hm : f.id ∈ st <;> cases o <;> simp [hm, h]

theorem process_mem_mono (oracle : Finding → SlackResult) (ch : String)
    {x : Option String} :
    ∀ (fs : List Finding) (st : List (Option String)), x ∈ st →
      x ∈ (process_findings oracle ch st fs).ledger := by
  intro fs
  induction fs with
  | nil => intro st h; simpa [process_findings] using h
  | cons f rest ih =>
    intro st h
    simp only [process_findings]
    exact ih _ (send_alert_mem_mono _ _ _ _ h)

theorem process_cons_seen {oracle : Finding → SlackResult} {ch : String}
    {st : List (Option String)} {f : Finding} {rest : List Finding}
    (h : f.id ∈ st) :
    process_findings oracle ch st (f :: rest) = process_findings oracle ch st rest := by
  simp [process_findings, send_alert_of_mem _ _ _ _ h]

theorem process_cons_ok {oracle : Finding → SlackResult} {ch : String}
    {st : List (Option String)} {f : Finding} {rest : List Finding}
    (h : f.id ∉ st) (ho : oracle f = SlackResult.ok) :
    process_findings oracle ch st (f :: rest) =
      ⟨(process_findings oracle ch (f.id :: st) rest).ledger,
       mkMessage ch f :: (process_findings oracle ch (f.id :: st) rest).posted,
       f.id :: (process_findings oracle ch (f.id :: st) rest).succeeded⟩ := by
  simp [process_findings, send_alert, h, ho]

theorem process_cons_err {oracle : Finding → SlackResult} {ch : String}
    {st : List (Option String)} {f : Finding} {rest : List Finding} {r : String}
    (h : f.id ∉ st) (ho : oracle f = SlackResult.apiError r) :
    process_findings oracle ch st (f :: rest) =
      ⟨(process_findings oracle ch st rest).ledger,
       mkMessage ch f :: (process_findings oracle ch st rest).posted,
       (process_findings oracle ch st rest).succeeded⟩ := by
  simp [process_findings, send_alert, h, ho]

theorem process_succ_count_zero (oracle : Finding → SlackResult) (ch : String)
    (i : Option String) :
    ∀ (fs : List Finding) (st : List (Option String)), i ∈ st →
      (process_findings oracle ch st fs).succeeded.count i = 0 := by
  intro fs
  induction fs with
  | nil => intro st h; simp [process_findings]
  | cons f rest ih =>
    intro st h
    by_cases hm : f.id ∈ st
    · rw [process_cons_seen hm]; exact ih st h
    · have hne : f.id ≠ i := fun he => hm (he ▸ h)
      cases ho : oracle f with
      | ok =>
        rw [process_cons_ok hm ho]
        have htl := ih (f.id :: st) (List.mem_cons_of_mem _ h)
        simp [List.count_cons, hne, htl]
      | apiError r =>
        rw [process_cons_err hm ho]; exact ih st h

theorem process_succ_mem_ledger (oracle : Finding → SlackResult) (ch : String)
    {i : Option String} :
    ∀ (fs : List Finding) (st : List (Option String)),
      i ∈ (process_findings oracle ch st fs).succeeded →
      i ∈ (process_findings oracle ch st fs).ledger := by
  intro fs
  induction fs with
  | nil => intro st h; simp [process_findings] at h
  | cons f rest ih =>
    intro st h
    by_cases hm : f.id ∈ st
    · rw [process_cons_seen hm] at h ⊢
      exact ih st h
    · cases ho : oracle f with
      | ok =>
        rw [process_cons_ok hm ho] at h ⊢
        rcases List.mem_cons.mp h with h | h
        · exact process_mem_mono oracle ch rest (f.id :: st)
            (h ▸ List.mem_cons_self _ _)
        · exact ih _ h
      | apiError r =>
        rw [process_cons_err hm ho] at h ⊢
        exact ih _ h

theorem process_succ_count_le_one (oracle : Finding → SlackResult) (ch : String)
    (i : Option String) :
    ∀ (fs : List Finding) (st : List (Option String)),
      (process_findings oracle ch st fs).succeeded.count i ≤ 1 := by
  intro fs
  induction fs with
  | nil => intro st; simp [process_findings]
  | cons f rest ih =>
    intro st
    by_cases hm : f.id ∈ st
    · rw [process_cons_seen hm]; exact ih st
    · cases ho : oracle f with
      | ok =>
        rw [process_cons_ok hm ho]
        by_cases he : f.id = i
        · subst he
          have htl := process_succ_count_zero oracle ch f.id rest (f.id :: st)
            (List.mem_cons_self _ _)
          simp [List.count_cons, htl]
        · simp only [List.count_cons_of_ne (Ne.symm he)]
          exact ih _
      | apiError r =>
        rw [process_cons_err hm ho]; exact ih st

theorem run_cycles_cons (ch : String) (st : List (Option String)) (c : Cycle)
    (rest : List Cycle) :
    run_cycles ch st (c :: rest) =
      ((run_cycles ch
          (process_findings c.oracle ch st (query_critical_findings c.fetch)).ledger rest).1,
       (process_findings c.oracle ch st (query_critical_findings c.fetch)).succeeded ++
         (run_cycles ch
           (process_findings c.oracle ch st (query_critical_findings c.fetch)).ledger rest).2) := by
  simp [run_cycles]

theorem run_mem_mono (ch : String) {x : Option String} :
    ∀ (cs : List Cycle) (st : List (Option String)), x ∈ st →
      x ∈ (run_cycles ch st cs).1 := by
  intro cs
  induction cs with
  | nil => intro st h; simpa [run_cycles] using h
  | cons c rest ih =>
    intro st h
    rw [run_cycles_cons]
    exact ih _ (process_mem_mono _ _ _ _ h)

theorem run_count_zero (ch : String) (i : Option String) :
    ∀ (cs : List Cycle) (st : List (Option String)), i ∈ st →
      (run_cycles ch st cs).2.count i = 0 := by
  intro cs
  induction cs with
  | nil => intro st h; simp [run_cycles]
  | cons c rest ih =>
    intro st h
    rw [run_cycles_cons]
    have h1 := process_succ_count_zero c.oracle ch i (query_critical_findings c.fetch) st h
    have h2 := ih _ (process_mem_mono c.oracle ch (query_critical_findings c.fetch) st h)
    simp [List.count_append, h1, h2]

theorem run_count_le_one (ch : String) (i : Option String) :
    ∀ (cs : List Cycle) (st : List (Option String)),
      (run_cycles ch st cs).2.count i ≤ 1 := by
  intro cs
  induction cs with
  | nil => intro st; simp [run_cycles]
  | cons c rest ih =>
    intro st
    rw [run_cycles_cons]
    simp only [List.count_append]
    by_cases hp : 0 <
        (process_findings c.oracle ch st (query_critical_findings c.fetch)).succeeded.count i
    · have hmem : i ∈
          (process_findings c.oracle ch st (query_critical_findings c.fetch)).succeeded :=
        List.count_pos_iff.mp hp
      have hled := process_succ_mem_ledger c.oracle ch (query_critical_findings c.fetch) st hmem
      have htl := run_count_zero ch i rest _ hled
      have hle := process_succ_count_le_one c.oracle ch i (query_critical_findings c.fetch) st
      omega
    · have h0 :
          (process_findings c.oracle ch st (query_critical_findings c.fetch)).succeeded.count i
            = 0 := by omega
      have htl := ih
        (process_findings c.oracle ch st (query_critical_findings c.fetch)).ledger
      omega

/-- Whether one block is the `*Additional Details:*` metadata section. -/
def is_metadata_block (b : Block) : Bool :=
  match b with
  | Block.textSection t => "*Additional Details:*".data.isPrefixOf t.data
  | _ => false

/-- Whether a rendered block list contains the metadata section. -/
def has_metadata_section (blocks : List Block) : Bool :=
  blocks.any is_metadata_block

/-- A fully populated sample finding. -/
def sampleFinding : Finding :=
  { id := some "f-001"
    sql := some "SELECT * FROM orders"
    riskScore := some 95
    riskLevel := some "CRITICAL"
    checkerId := some "full-table-scan"
    message := some "Full table scan detected"
    recommendation := some "Add an index on the filter column"
    createdAt := some "2024-01-01T00:00:00"
    metadata := some [("database", "orders_db")] }

/-- A second sample finding with a distinct identifier. -/
def sampleFinding2 : Finding :=
  { sampleFinding with id := some "f-002" }

/-- A finding with every optional field absent. -/
def bareFinding : Finding :=
  { id := none, sql := none, riskScore := none, riskLevel := none,
    checkerId := none, message := none, recommendation := none,
    createdAt := none, metadata := none }

/-- A second id-less finding, differing from `bareFinding` elsewhere. -/
def bareFinding2 : Finding :=
  { bareFinding with message := some "a different id-less finding" }

/-! ### Claims -/

/-- Claim C1: for every finding identifier, across any number of poll cycles,
at most one successful dispatch to the messaging channel occurs: `send_alert`
checks the `sent_alerts` ledger before posting, posts only when the
identifier is absent, and records the identifier only after a successful
post, so the identifier occurs at most once among the successes of a run. -/
theorem at_most_one_successful_dispatch (ch : String) (st : List (Option String))
    (cs : List Cycle) (i : Option String) :
    (run_cycles ch st cs).2.count i ≤ 1 :=
  run_count_le_one ch i cs st

/-- Claim C2: when the channel dispatch for a finding fails, `send_alert`
returns `False` without adding the identifier to the ledger; the identifier
is still absent afterward, and a later cycle that re-fetches the same finding
posts to the channel again. -/
theorem failed_dispatch_not_marked_and_retried (ch : String)
    (st : List (Option String)) (f : Finding) (r : String) (o₂ : SlackResult)
    (h : f.id ∉ st) :
    (send_alert (SlackResult.apiError r) ch st f).1 = false ∧
    (send_alert (SlackResult.apiError r) ch st f).2.1 = st ∧
    f.id ∉ (send_alert (SlackResult.apiError r) ch st f).2.1 ∧
    (send_alert o₂ ch (send_alert (SlackResult.apiError r) ch st f).2.1 f).2.2 =
      [mkMessage ch f] := by
  have e : send_alert (SlackResult.apiError r) ch st f = (false, st, [mkMessage ch f]) := by
    simp [send_alert, h]
  refine ⟨by rw [e], by rw [e], by rw [e]; exact h, ?_⟩
  rw [e]
  cases o₂ <;> simp [send_alert, h]

theorem failed_dispatch_not_marked_and_retried_witness :
    (send_alert (SlackResult.apiError "ratelimited") "#sql-audit-alerts"
        [some "f-001"] sampleFinding2).1 = false ∧
    (send_alert (SlackResult.apiError "ratelimited") "#sql-audit-alerts"
        [some "f-001"] sampleFinding2).2.1 = [some "f-001"] ∧
    sampleFinding2.id ∉ (send_alert (SlackResult.apiError "ratelimited")
        "#sql-audit-alerts" [some "f-001"] sampleFinding2).2.1 ∧
    (send_alert SlackResult.ok "#sql-audit-alerts"
        (send_alert (SlackResult.apiError "ratelimited") "#sql-audit-alerts"
          [some "f-001"] sampleFinding2).2.1 sampleFinding2).2.2 =
      [mkMessage "#sql-audit-alerts" sampleFinding2] :=
  failed_dispatch_not_marked_and_retried "#sql-audit-alerts" [some "f-001"]
    sampleFinding2 "ratelimited" SlackResult.ok (by decide)

/-- Claim C3 fails on the code: `main` sets `last_poll = datetime.now()`
unconditionally at the end of the cycle, so a cycle whose fetch fails still
advances `last_poll` — here from 0 to 100. -/
theorem last_poll_advances_on_failed_fetch :
    (main_cycle 100 FetchResult.failure (fun _ => SlackResult.ok)
        "#sql-audit-alerts" { last_poll := 0, ledger := [] }).1.last_poll = 100 ∧
    (100 : Nat) ≠ 0 :=
  ⟨rfl, by decide⟩

/-- Claim C3 amended: `main` advances `last_poll` to the current time after
every cycle, including cycles whose source fetch failed, so the next cycle's
query window excludes the time range of the failed attempt. -/
theorem last_poll_always_advances (now : Nat) (fetch : FetchResult)
    (oracle : Finding → SlackResult) (ch : String) (st : LoopState) :
    (main_cycle now fetch oracle ch st).1.last_poll = now := rfl

/-- Claim C4 fails on the code: a failed fetch is not signaled to the
controller distinctly from a genuinely empty result —
`query_critical_findings` returns the bare list `[]` in both cases, with no
side return value or status flag, and the whole cycle outcome is identical. -/
theorem failed_fetch_indistinguishable :
    query_critical_findings FetchResult.failure =
      query_critical_findings (FetchResult.success []) ∧
    main_cycle 50 FetchResult.failure (fun _ => SlackResult.ok)
        "#sql-audit-alerts" { last_poll := 0, ledger := [] } =
      main_cycle 50 (FetchResult.success []) (fun _ => SlackResult.ok)
        "#sql-audit-alerts" { last_poll := 0, ledger := [] } :=
  ⟨rfl, rfl⟩

/-- Claim C4 amended: when the fetch fails the adapter logs and returns the
empty sequence instead of raising, but the failure is not signaled to the
controller: the controller receives exactly what an empty successful fetch
yields, and cannot distinguish the two. -/
theorem fetch_failure_returns_empty_unsignaled (now : Nat)
    (oracle : Finding → SlackResult) (ch : String) (st : LoopState) :
    query_critical_findings FetchResult.failure = [] ∧
    main_cycle now FetchResult.failure oracle ch st =
      main_cycle now (FetchResult.success []) oracle ch st :=
  ⟨rfl, rfl⟩

/-- Claim C5 fails on the code: rendering a finding with no metadata and no
recommendation puts a placeholder only in the recommendation position; the
metadata position is silently omitted — the payload for `bareFinding` has
exactly the six base blocks and no `*Additional Details:*` section at all,
placeholder or otherwise. -/
theorem metadata_placeholder_missing :
    Block.textSection "*Recommendation:*\nNo recommendation available"
        ∈ build_message_blocks bareFinding ∧
    has_metadata_section (build_message_blocks bareFinding) = false ∧
    (build_message_blocks bareFinding).length = 6 :=
  ⟨by decide, by decide, by decide⟩

/-- Claim C5 amended: rendering is total and never fails; a finding with no
`recommendation` gets the placeholder `No recommendation available` in the
recommendation position, but a finding with no `metadata` gets no metadata
section at all: exactly the six base blocks are produced, with the metadata
section silently omitted rather than rendered with a placeholder. -/
theorem render_missing_optionals (f : Finding)
    (hr : f.recommendation = none) (hm : f.metadata = none) :
    build_message_blocks f =
      [Block.header (emoji_for (f.riskLevel.getD "UNKNOWN") ++
         " Critical SQL Audit Finding"),
       Block.fieldsSection
         ["*Severity:*\n" ++ f.riskLevel.getD "UNKNOWN",
          "*Risk Score:*\n" ++ toString (f.riskScore.getD 0) ++ "/100",
          "*Checker:*\n" ++ f.checkerId.getD "Unknown",
          "*Time:*\n" ++ f.createdAt.getD "Unknown"],
       Block.textSection ("*SQL Statement:*\n```" ++ f.sql.getD "N/A" ++ "```"),
       Block.textSection ("*Issue:*\n" ++ f.message.getD "No description available"),
       Block.textSection ("*Recommendation:*\n" ++ "No recommendation available"),
       Block.divider] := by
  simp [build_message_blocks, hr, hm]

theorem render_missing_optionals_witness :
    build_message_blocks bareFinding =
      [Block.header (emoji_for (bareFinding.riskLevel.getD "UNKNOWN") ++
         " Critical SQL Audit Finding"),
       Block.fieldsSection
         ["*Severity:*\n" ++ bareFinding.riskLevel.getD "UNKNOWN",
          "*Risk Score:*\n" ++ toString (bareFinding.riskScore.getD 0) ++ "/100",
          "*Checker:*\n" ++ bareFinding.checkerId.getD "Unknown",
          "*Time:*\n" ++ bareFinding.createdAt.getD "Unknown"],
       Block.textSection ("*SQL Statement:*\n```" ++ bareFinding.sql.getD "N/A" ++ "```"),
       Block.textSection
         ("*Issue:*\n" ++ bareFinding.message.getD "No description available"),
       Block.textSection ("*Recommendation:*\n" ++ "No recommendation available"),
       Block.divider] :=
  render_missing_optionals bareFinding rfl rfl

/-- Claim C6: during the notifying phase findings are processed in the
fetched order and a dispatch failure for one finding does not abort the
batch: when the batch's identifiers are unseen and pairwise distinct, every
finding is rendered and a dispatch is attempted for it, in order, whatever
the channel's outcomes (including failures for any prefix of the batch). -/
theorem batch_continues_after_failure (oracle : Finding → SlackResult)
    (ch : String) (fs : List Finding) :
    ∀ st : List (Option String), (∀ f ∈ fs, f.id ∉ st) →
      (fs.map Finding.id).Nodup →
      (process_findings oracle ch st fs).posted = fs.map (mkMessage ch) := by
  induction fs with
  | nil => intro st _ _; simp [process_findings]
  | cons f rest ih =>
    intro st hfresh hnd
    have hf : f.id ∉ st := hfresh f (List.mem_cons_self _ _)
    have hnd2 : f.id ∉ rest.map Finding.id ∧ (rest.map Finding.id).Nodup := by
      rw [List.map_cons] at hnd
      exact List.nodup_cons.mp hnd
    have hfresh2 : ∀ g ∈ rest, g.id ∉ st :=
      fun g hg => hfresh g (List.mem_cons_of_mem _ hg)
    cases ho : oracle f with
    | ok =>
      rw [process_cons_ok hf ho]
      show mkMessage ch f :: (process_findings oracle ch (f.id :: st) rest).posted = _
      rw [ih (f.id :: st) ?_ hnd2.2, List.map_cons]
      intro g hg
      rw [List.mem_cons]
      rintro (he | hmem)
      · exact hnd2.1 (he ▸ List.mem_map_of_mem Finding.id hg)
      · exact hfresh2 g hg hmem
    | apiError r =>
      rw [process_cons_err hf ho]
      show mkMessage ch f :: (process_findings oracle ch st rest).posted = _
      rw [ih st hfresh2 hnd2.2, List.map_cons]

theorem batch_continues_after_failure_witness :
    (process_findings
        (fun f => if f.id = some "f-001"
          then SlackResult.apiError "ratelimited" else SlackResult.ok)
        "#sql-audit-alerts" [] [sampleFinding, sampleFinding2]).posted =
      [sampleFinding, sampleFinding2].map (mkMessage "#sql-audit-alerts") :=
  batch_continues_after_failure
    (fun f => if f.id = some "f-001"
      then SlackResult.apiError "ratelimited" else SlackResult.ok)
    "#sql-audit-alerts" [sampleFinding, sampleFinding2] [] (by decide) (by decide)

/-- Claim C7 fails on the code: `send_alert` produces the identical result
for two different channel error classifications — the classification is only
logged, never surfaced to the caller. -/
theorem error_classification_not_surfaced :
    send_alert (SlackResult.apiError "ratelimited") "#sql-audit-alerts" [] sampleFinding =
      send_alert (SlackResult.apiError "invalid_auth") "#sql-audit-alerts" [] sampleFinding :=
  rfl

/-- Claim C7 amended: `send_alert` makes at most one `chat_postMessage` call
per invocation — exactly one whenever the finding is not deduplicated — and
never retries internally, but its result does not surface the channel's
error classification: every error reason yields the same return value. -/
theorem single_call_no_retry_classification_swallowed (o : SlackResult)
    (ch : String) (st : List (Option String)) (f : Finding) :
    (send_alert o ch st f).2.2.length ≤ 1 ∧
    (f.id ∉ st → (send_alert o ch st f).2.2.length = 1) ∧
    (∀ r₁ r₂ : String,
      send_alert (SlackResult.apiError r₁) ch st f =
        send_alert (SlackResult.apiError r₂) ch st f) := by
  refine ⟨?_, ?_, fun r₁ r₂ => rfl⟩
  · unfold send_alert
    by_cases hm : f.id ∈ st <;> cases o <;> simp [hm]
  · intro h
    unfold send_alert
    cases o <;> simp [h]

theorem single_call_no_retry_classification_swallowed_witness :
    (send_alert SlackResult.ok "#sql-audit-alerts" [] sampleFinding).2.2.length ≤ 1 ∧
    (send_alert SlackResult.ok "#sql-audit-alerts" [] sampleFinding).2.2.length = 1 ∧
    send_alert (SlackResult.apiError "ratelimited") "#sql-audit-alerts" [] sampleFinding =
      send_alert (SlackResult.apiError "channel_not_found")
        "#sql-audit-alerts" [] sampleFinding :=
  ⟨(single_call_no_retry_classification_swallowed SlackResult.ok
      "#sql-audit-alerts" [] sampleFinding).1,
   (single_call_no_retry_classification_swallowed SlackResult.ok
      "#sql-audit-alerts" [] sampleFinding).2.1 (by decide),
   (single_call_no_retry_classification_swallowed SlackResult.ok
      "#sql-audit-alerts" [] sampleFinding).2.2 "ratelimited" "channel_not_found"⟩

/-- Claim C8: every message posted by `send_alert` carries the plain-text
fallback `"Critical SQL Issue: "` followed by the finding's message, or by
the placeholder `"Unknown"` when the message field is absent. -/
theorem fallback_text_format (o : SlackResult) (ch : String)
    (st : List (Option String)) (f : Finding) (msg : SlackMessage)
    (hmem : msg ∈ (send_alert o ch st f).2.2) :
    (∀ m, f.message = some m → msg.text = "Critical SQL Issue: " ++ m) ∧
    (f.message = none → msg.text = "Critical SQL Issue: " ++ "Unknown") := by
  have hmsg : msg = mkMessage ch f := by
    unfold send_alert at hmem
    by_cases hm : f.id ∈ st <;> cases o <;> simp [hm] at hmem <;> exact hmem
  subst hmsg
  constructor
  · intro m hm
    simp [mkMessage, hm]
  · intro hm
    simp [mkMessage, hm]

theorem fallback_text_format_witness :
    (mkMessage "#sql-audit-alerts" bareFinding).text =
      "Critical SQL Issue: " ++ "Unknown" :=
  (fallback_text_format SlackResult.ok "#sql-audit-alerts" [] bareFinding
    (mkMessage "#sql-audit-alerts" bareFinding) (by simp [send_alert])).2 rfl

/-- Claim C9: `send_alert` returns `False` both when the finding is skipped
because its identifier is already in the ledger and when the channel
dispatch fails, so the caller cannot distinguish a deduplication skip from a
delivery failure by the return value alone. -/
theorem skip_and_failure_indistinguishable (o : SlackResult) (ch : String)
    (st st' : List (Option String)) (f g : Finding) (r : String)
    (hseen : f.id ∈ st) (hnew : g.id ∉ st') :
    (send_alert o ch st f).1 = false ∧
    (send_alert (SlackResult.apiError r) ch st' g).1 = false ∧
    (send_alert o ch st f).1 = (send_alert (SlackResult.apiError r) ch st' g).1 := by
  have h1 : (send_alert o ch st f).1 = false := by simp [send_alert, hseen]
  have h2 : (send_alert (SlackResult.apiError r) ch st' g).1 = false := by
    simp [send_alert, hnew]
  exact ⟨h1, h2, h1.trans h2.symm⟩

theorem skip_and_failure_indistinguishable_witness :
    (send_alert SlackResult.ok "#sql-audit-alerts" [some "f-001"] sampleFinding).1
        = false ∧
    (send_alert (SlackResult.apiError "channel_not_found")
        "#sql-audit-alerts" [] sampleFinding2).1 = false ∧
    (send_alert SlackResult.ok "#sql-audit-alerts" [some "f-001"] sampleFinding).1 =
      (send_alert (SlackResult.apiError "channel_not_found")
        "#sql-audit-alerts" [] sampleFinding2).1 :=
  skip_and_failure_indistinguishable SlackResult.ok "#sql-audit-alerts"
    [some "f-001"] [] sampleFinding sampleFinding2 "channel_not_found"
    (by decide) (by decide)

/-- Claim C10: deduplication keys on `finding.get('id')` with a `None`
default: an id-less finding is recorded under the key `None` after a
successful dispatch, and every subsequent id-less finding is then suppressed
as a duplicate — `send_alert` returns `False` and posts nothing. -/
theorem idless_findings_collide (ch : String) (st : List (Option String))
    (f₁ f₂ : Finding) (o₂ : SlackResult)
    (h₁ : f₁.id = none) (h₂ : f₂.id = none)
    (hfresh : (none : Option String) ∉ st) :
    (send_alert SlackResult.ok ch st f₁).1 = true ∧
    (none : Option String) ∈ (send_alert SlackResult.ok ch st f₁).2.1 ∧
    send_alert o₂ ch (send_alert SlackResult.ok ch st f₁).2.1 f₂ =
      (false, (send_alert SlackResult.ok ch st f₁).2.1, []) := by
  have e1 : send_alert SlackResult.ok ch st f₁ = (true, none :: st, [mkMessage ch f₁]) := by
    simp [send_alert, h₁, hfresh]
  refine ⟨by rw [e1], by rw [e1]; exact List.mem_cons_self _ _, ?_⟩
  rw [e1]
  show send_alert o₂ ch (none :: st) f₂ = (false, none :: st, [])
  simp [send_alert, h₂]

theorem idless_findings_collide_witness :
    (send_alert SlackResult.ok "#sql-audit-alerts" [] bareFinding).1 = true ∧
    (none : Option String)
        ∈ (send_alert SlackResult.ok "#sql-audit-alerts" [] bareFinding).2.1 ∧
    send_alert SlackResult.ok "#sql-audit-alerts"
        (send_alert SlackResult.ok "#sql-audit-alerts" [] bareFinding).2.1
        bareFinding2 =
      (false, (send_alert SlackResult.ok "#sql-audit-alerts" [] bareFinding).2.1, []) :=
  idless_findings_collide "#sql-audit-alerts" [] bareFinding bareFinding2
    SlackResult.ok rfl rfl (by decide)

end SlackAlert
